import Mathlib

set_option maxRecDepth 4000

/-!
Verification of the training-loop orchestration and sample-encoding pipeline of
tasks/DREAM/train.py: the sequence encoder (prepare_sample and onehot), the
checkpoint resume scan and policy, the command-line option handling, the rolling
metrics window, and the interrupt handler, shallowly embedded as executable
functions over Int, Nat and Rat.
-/

/-- Index of the first occurrence of c in xs: models Python list.index on the
sample; none models the ValueError raised when c is absent. -/
def pyIndex? (xs : List Int) (c : Int) : Option Nat :=
  match xs with
  | [] => none
  | x :: rest => if x = c then some 0 else (pyIndex? rest c).map (fun j => j + 1)

/-- Model of onehot (train.py lines 39-48): numpy assignment vec[index] = 1.0 on a
zero vector of the given size. A negative index in [-size, 0) wraps to position
size + index exactly as numpy indexing does; an index outside [-size, size)
raises IndexError. -/
def onehot (index : Int) (size : Nat) : Except String (List ℚ) :=
  if 0 ≤ index ∧ index < (size : Int) then
    .ok ((List.replicate size (0 : ℚ)).set index.toNat 1)
  else if -(size : Int) ≤ index ∧ index < 0 then
    .ok ((List.replicate size (0 : ℚ)).set (size - (-index).toNat) 1)
  else .error "IndexError: index out of bounds"

/-- Left-to-right one-hot encoding of a list of ids, propagating the first
failure: models the list comprehensions over onehot in prepare_sample
(train.py lines 71-72). -/
def mapOnehot (codes : List Int) (size : Nat) : Except String (List (List ℚ)) :=
  match codes with
  | [] => .ok []
  | c :: rest =>
    match onehot c size with
    | .error e => .error e
    | .ok v =>
      match mapOnehot rest size with
      | .error e => .error e
      | .ok vs => .ok (v :: vs)

/-- Numpy boolean-mask assignment arr[mask] = x: the boolean index must have the
same length as the array, otherwise numpy raises IndexError. Models
weights_vec[target_mask] = 1.0 (train.py line 69). -/
def npBoolAssign (arr : List ℚ) (mask : List Bool) (x : ℚ) : Except String (List ℚ) :=
  if mask.length = arr.length then
    .ok (List.zipWith (fun a m => if m then x else a) arr mask)
  else .error "IndexError: boolean index did not match indexed array"

/-- Right-padding of the answer with the separator until it reaches the input
length: models the while-append loop of prepare_sample (train.py lines 63-64);
a longer answer is left unchanged. -/
def padAnswer (xs : List Int) (n : Nat) (c : Int) : List Int :=
  xs ++ List.replicate (n - xs.length) c

/-- The input id sequence of prepare_sample: everything before the first
occurrence of the separator (train.py line 61). -/
def inputIds (sample : List Int) (j : Nat) : List Int := sample.take j

/-- The padded answer id sequence of prepare_sample: everything after the first
occurrence of the separator, right-padded with the separator to the input
length (train.py lines 62-64). -/
def outputIds (sample : List Int) (sep : Int) (j : Nat) : List Int :=
  padAnswer (sample.drop (j + 1)) (sample.take j).length sep

/-- The loss-weights vector of prepare_sample: a zero vector of the input length
with 1.0 assigned through the boolean mask output_vec != target_code
(train.py lines 66-69). -/
def weightsOf (sample : List Int) (sep : Int) (j : Nat) : Except String (List ℚ) :=
  npBoolAssign (List.replicate (sample.take j).length (0 : ℚ))
    ((outputIds sample sep j).map (fun c => decide (c ≠ sep))) 1

/-- Result of prepare_sample: input tensor (1, T, V), target tensor (1, T, V),
sequence length T, and loss-weights tensor (1, T, 1). -/
structure Prepared where
  input_data : List (List (List ℚ))
  target_output : List (List (List ℚ))
  seq_len : Nat
  weights : List (List (List ℚ))
deriving Repr, DecidableEq

/-- Model of prepare_sample (train.py lines 51-79): split the sample at the first
separator, pad the answer, build the loss mask by boolean assignment, one-hot
encode both sequences, and reshape with a leading batch dimension of 1.
The error cases are the ValueError of list.index on a separator-free sample,
the IndexError of the boolean-mask assignment when the padded answer is longer
than the input, and the IndexError of onehot on an id outside [-V, V). -/
def prepare_sample (sample : List Int) (target_code : Int) (word_space_size : Nat) :
    Except String Prepared :=
  match pyIndex? sample target_code with
  | none => .error "ValueError: target_code is not in list"
  | some j =>
    match weightsOf sample target_code j with
    | .error e => .error e
    | .ok weights_vec =>
      match mapOnehot (inputIds sample j) word_space_size with
      | .error e => .error e
      | .ok input_vec =>
        match mapOnehot (outputIds sample target_code j) word_space_size with
        | .error e => .error e
        | .ok output_vec =>
          .ok { input_data := [input_vec]
                target_output := [output_vec]
                seq_len := (inputIds sample j).length
                weights := [weights_vec.map (fun w => [w])] }

/-- Sum of all entries of the loss-weights tensor of a prepared sample. -/
def maskSum (p : Prepared) : ℚ :=
  (p.weights.map (fun t => (t.map List.sum).sum)).sum

/-- Whether an Except value is a success. -/
def isOkB {α : Type} (r : Except String α) : Bool :=
  match r with
  | .ok _ => true
  | .error _ => false

/-- Index of the first dash in a character list, none when absent: models
Python str.find, which returns -1 when the character is absent. -/
def findDashIdx (s : List Char) : Option Nat :=
  match s with
  | [] => none
  | c :: rest => if c = '-' then some 0 else (findDashIdx rest).map (fun j => j + 1)

/-- The substring after the first dash: models s[s.find(c) + 1:] in the
checkpoint scan (train.py lines 183, 195). When there is no dash, find
returns -1 and s[0:] is the whole string. -/
def pyDashSuffix (s : List Char) : List Char :=
  match findDashIdx s with
  | none => s
  | some j => s.drop (j + 1)

/-- Model of Python str.isnumeric restricted to decimal digits: nonempty and
all digits. -/
def isNumericStr (s : List Char) : Bool :=
  !s.isEmpty && s.all (fun c => c.isDigit)

/-- Decimal value of a digit string. -/
def parseDecimal (s : List Char) : Nat :=
  s.foldl (fun acc c => acc * 10 + (c.toNat - 48)) 0

/-- Model of Python int(s): an optional sign followed by a nonempty digit
string, none for the ValueError raised on anything else. -/
def pyInt? (s : List Char) : Option Int :=
  match s with
  | '-' :: rest => if isNumericStr rest then some (-(parseDecimal rest : Int)) else none
  | '+' :: rest => if isNumericStr rest then some ((parseDecimal rest : Int)) else none
  | _ => if isNumericStr s then some ((parseDecimal s : Int)) else none

/-- Whether the second list starts with the first. -/
def startsWith : List Char → List Char → Bool
  | [], _ => true
  | _ :: _, [] => false
  | a :: as, b :: bs => a = b && startsWith as bs

/-- Whether sub occurs contiguously inside s: models the Python substring test
used in the checkpoint scan (train.py line 182). -/
def hasSub (sub s : List Char) : Bool :=
  startsWith sub s ||
    (match s with
     | [] => false
     | _ :: rest => hasSub sub rest)

/-- The list of parsed checkpoint numbers (train.py line 183): for every
directory entry whose suffix after its first dash is numeric, that suffix's
decimal value. Note the filter keys on the first dash of the name, not on the
literal prefix step-. -/
def checkpoint_numbers (entries : List String) : List Nat :=
  (entries.filter (fun s => isNumericStr (pyDashSuffix s.toList))).map
    (fun s => parseDecimal (pyDashSuffix s.toList))

/-- The value selected from the parsed checkpoint numbers: the code sorts the
list ascending and takes the last element (train.py lines 184-185), which for
a nonempty list of naturals is its maximum. -/
def maxCkpt (ns : List Nat) : Nat := ns.foldl max 0

/-- Outcome of the startup resume policy: loop bounds, or the IndexError of
checkpoint_numbers[-1] on an empty list, or the ValueError of int() on a
non-numeric suffix of the explicit checkpoint name. -/
inductive StartupResult where
  | ok : Int → Nat → StartupResult
  | indexErr : StartupResult
  | valueErr : StartupResult
deriving Repr, DecidableEq

/-- Startup state: the checkpoint names passed to ncomputer.restore, and the
resulting loop bounds or fatal error. -/
structure Startup where
  restores : List String
  result : StartupResult
deriving Repr, DecidableEq

/-- Model of the startup resume policy of main (train.py lines 176-201 and the
loop bounds of line 203). With an explicit checkpoint the code restores that
exact name and then takes int of the name's suffix after its first dash as the
start step; otherwise, when the checkpoint directory exists, is nonempty and
some entry contains step-, it restores step-<max parsed number> and starts at
that number. The end bound is the literal 100000 in every branch; the parsed
iterations and start_step options are never consulted. -/
def startup (from_checkpoint : Option String) (dirExists : Bool)
    (entries : List String) : Startup :=
  match from_checkpoint with
  | some name =>
    { restores := [name]
      result :=
        match pyInt? (pyDashSuffix name.toList) with
        | some n => .ok n 100000
        | none => .valueErr }
  | none =>
    if dirExists then
      if entries.length != 0 && entries.any (fun s => hasSub "step-".toList s.toList) then
        match checkpoint_numbers entries with
        | [] => { restores := [], result := .indexErr }
        | n :: ns =>
          { restores := ["step-" ++ toString (maxCkpt (n :: ns))]
            result := .ok (maxCkpt (n :: ns) : Int) 100000 }
      else { restores := [], result := .ok 0 100000 }
    else { restores := [], result := .ok 0 100000 }

/-- First step executed by for i in range(start, end + 1) (train.py line 203):
start itself when start is at most end. -/
def firstLoopStep (start : Int) (endStep : Nat) : Option Int :=
  if start ≤ (endStep : Int) then some start else none

/-- Parsed command-line options of main (train.py lines 110-124). -/
structure Opts where
  from_checkpoint : Option String
  iterations : Int
  start_step : Int
deriving Repr, DecidableEq

/-- Defaults of the command-line options (train.py lines 110-115). -/
def defaultOpts : Opts :=
  { from_checkpoint := none, iterations := 100000, start_step := 0 }

/-- The option-processing loop of main (train.py lines 117-124): each recognized
option overwrites its field; int() failures on the numeric options are the
ValueError of Python int. -/
def parseOptsFold (o : Opts) : List (String × String) → Except String Opts
  | [] => .ok o
  | (k, v) :: rest =>
    if k = "--checkpoint" then parseOptsFold { o with from_checkpoint := some v } rest
    else if k = "--iterations" then
      match pyInt? v.toList with
      | some n => parseOptsFold { o with iterations := n } rest
      | none => .error "ValueError: invalid literal for int"
    else if k = "--start" then
      match pyInt? v.toList with
      | some n => parseOptsFold { o with start_step := n } rest
      | none => .error "ValueError: invalid literal for int"
    else parseOptsFold o rest

/-- Option parsing starting from the defaults. -/
def parseOpts (options : List (String × String)) : Except String Opts :=
  parseOptsFold defaultOpts options

/-- Loop bounds actually used by main for a given parsed configuration: the code
derives them only from from_checkpoint and the checkpoint directory; the
iterations and start_step fields are read nowhere after parsing. -/
def runBounds (o : Opts) (dirExists : Bool) (entries : List String) : Startup :=
  startup o.from_checkpoint dirExists entries

/-- Rolling metrics state of main: the loss window last_100_losses and the
smoothed interval duration with its report counter (train.py lines 198-201). -/
structure Metrics where
  last_100_losses : List ℚ
  avg_100_time : ℚ
  avg_counter : Nat
deriving Repr, DecidableEq

/-- Appending the current loss to the rolling window (train.py line 238). -/
def recordLoss (m : Metrics) (loss : ℚ) : Metrics :=
  { m with last_100_losses := m.last_100_losses ++ [loss] }

/-- Model of np.mean on the loss window. -/
def npMean (xs : List ℚ) : ℚ := xs.sum / (xs.length : ℚ)

/-- The data printed by a report. -/
structure Report where
  mean_loss : ℚ
  avg_time : ℚ
deriving Repr, DecidableEq

/-- The report block of main at a summarize step (train.py lines 239-256): the
mean of the loss window, the cumulative-mean update of the smoothed interval
duration with the incremented report counter, and the reset of the window. -/
def flushReport (m : Metrics) (elapsed : ℚ) : Report × Metrics :=
  let mean := npMean m.last_100_losses
  let counter := m.avg_counter + 1
  let avg := m.avg_100_time + (1 / (counter : ℚ)) * (elapsed - m.avg_100_time)
  ({ mean_loss := mean, avg_time := avg },
   { last_100_losses := [], avg_100_time := avg, avg_counter := counter })

/-- Observable effects of the training loop relevant to checkpointing. -/
inductive TrainEffect where
  | train : TrainEffect
  | report : TrainEffect
  | saveCkpt : String → TrainEffect
  | exitProc : Nat → TrainEffect
deriving Repr, DecidableEq

/-- Effects of one completed iteration body of main (train.py lines 203-261):
the training session.run, then a report when i % 100 == 0, then a checkpoint
save named step-i when i is a positive multiple of 200. -/
def stepBody (i : Nat) : List TrainEffect :=
  [.train] ++ (if i % 100 = 0 then [.report] else [])
    ++ (if i ≠ 0 ∧ i % 200 = 0 then [.saveCkpt ("step-" ++ toString i)] else [])

/-- Effects of the KeyboardInterrupt handler of main (train.py lines 263-268):
one checkpoint save named for the current step, then sys.exit(0). -/
def interruptHandler (i : Nat) : List TrainEffect :=
  [.saveCkpt ("step-" ++ toString i), .exitProc 0]

/-- Effects of step i when an interrupt arrives after the body's first k
effects: the body's prefix followed by the handler. -/
def interruptedStep (i k : Nat) : List TrainEffect :=
  (stepBody i).take k ++ interruptHandler i

/-- The checkpoint name of a save effect. -/
def saveName : TrainEffect → Option String
  | .saveCkpt n => some n
  | _ => none

/-- Parameter count of prepare_sample as defined (train.py line 51): sample,
target_code, word_space_size. -/
def prepare_sample_paramCount : Nat := 3

/-- Argument count at the training-loop call site (train.py line 209): sample,
the separator id, word_space_size, and lexicon_dict. -/
def trainStepCallArgCount : Nat := 4

/-- Python call semantics for a function without defaults or varargs: the
argument count must equal the parameter count, else TypeError. -/
def pyCallCheck (paramCount argCount : Nat) : Except String Unit :=
  if argCount = paramCount then .ok () else .error "TypeError"

/-! Helper lemmas shared by the claim proofs. -/

/-- A found index is a valid position of the list. -/
theorem pyIndex_lt {xs : List Int} {c : Int} {j : Nat}
    (h : pyIndex? xs c = some j) : j < xs.length := by
  induction xs generalizing j with
  | nil => simp [pyIndex?] at h
  | cons x rest ih =>
    by_cases hx : x = c
    · simp [pyIndex?, hx] at h
      simp only [List.length_cons]
      omega
    · simp [pyIndex?, hx] at h
      obtain ⟨j', hj', rfl⟩ := h
      have := ih hj'
      simp only [List.length_cons]
      omega

/-- Masked assignment on an all-zero vector yields the indicator of the mask. -/
theorem zipWith_replicate_mask (bs : List Bool) (n : Nat) (h : bs.length = n) :
    List.zipWith (fun (a : ℚ) m => if m then 1 else a) (List.replicate n 0) bs
      = bs.map (fun m => if m then (1 : ℚ) else 0) := by
  induction bs generalizing n with
  | nil => simp
  | cons b bs ih =>
    cases n with
    | zero => simp at h
    | succ n =>
      simp only [List.replicate_succ, List.zipWith_cons_cons, List.map_cons]
      rw [ih n (by simpa using h)]

/-- The sum of a zero-one indicator over a list counts the positions where the
value differs from the separator. -/
theorem sum_indicator (xs : List Int) (sep : Int) :
    ((xs.map (fun c => if c = sep then (0 : ℚ) else 1))).sum
      = ((xs.filter (fun c => c ≠ sep)).length : ℚ) := by
  induction xs with
  | nil => simp
  | cons x xs ih =>
    by_cases hx : x = sep
    · simp [hx, ih]
    · simp [hx, ih]
      ring

/-- Padding with the separator adds no position that differs from it. -/
theorem filter_padAnswer (xs : List Int) (n : Nat) (sep : Int) :
    (padAnswer xs n sep).filter (fun c => c ≠ sep) = xs.filter (fun c => c ≠ sep) := by
  unfold padAnswer
  rw [List.filter_append]
  have : (List.replicate (n - xs.length) sep).filter (fun c => c ≠ sep) = [] := by
    induction (n - xs.length) with
    | zero => simp
    | succ k ih => simp [List.replicate_succ, ih]
  simp [this]

/-- Setting one entry of an all-zero vector gives a vector summing to that
entry. -/
theorem replicate_set_sum (n i : Nat) (x : ℚ) (h : i < n) :
    ((List.replicate n (0 : ℚ)).set i x).sum = x := by
  induction n generalizing i with
  | zero => omega
  | succ n ih =>
    cases i with
    | zero => simp [List.replicate_succ]
    | succ i =>
      simp only [List.replicate_succ, List.set_cons_succ, List.sum_cons]
      rw [ih i (by omega)]
      ring

/-- Setting one entry of an all-zero vector puts that entry at the set
position. -/
theorem replicate_set_getD (n i : Nat) (x : ℚ) (h : i < n) :
    ((List.replicate n (0 : ℚ)).set i x).getD i 0 = x := by
  induction n generalizing i with
  | zero => omega
  | succ n ih =>
    cases i with
    | zero => simp [List.replicate_succ]
    | succ i =>
      simp only [List.replicate_succ, List.set_cons_succ, List.getD_cons_succ]
      exact ih i (by omega)

/-- A successful one-hot encoding implies the id lies in [-size, size). -/
theorem onehot_ok_range {idx : Int} {V : Nat}
    (h : isOkB (onehot idx V) = true) : -(V : Int) ≤ idx ∧ idx < (V : Int) := by
  unfold onehot at h
  split_ifs at h with h1 h2
  · omega
  · omega
  · simp [isOkB] at h

/-- A successful encoding of a list of ids means every element encodes
successfully. -/
theorem mapOnehot_ok_mem {codes : List Int} {V : Nat} {r : List (List ℚ)}
    (h : mapOnehot codes V = .ok r) :
    ∀ c ∈ codes, isOkB (onehot c V) = true := by
  induction codes generalizing r with
  | nil => intro c hc; simp at hc
  | cons x rest ih =>
    intro c hc
    unfold mapOnehot at h
    cases hx : onehot x V with
    | error e => rw [hx] at h; simp at h
    | ok v =>
      rw [hx] at h
      cases hr : mapOnehot rest V with
      | error e => rw [hr] at h; simp at h
      | ok vs =>
        rw [hr] at h
        rcases List.mem_cons.mp hc with rfl | hc'
        · simp [isOkB, hx]
        · exact ih hr c hc'

/-- An id failing to encode makes the whole list encoding fail. -/
theorem mapOnehot_error_of_mem {codes : List Int} {V : Nat} {c : Int}
    (hc : c ∈ codes) (h : isOkB (onehot c V) = false) :
    isOkB (mapOnehot codes V) = false := by
  induction codes with
  | nil => simp at hc
  | cons x rest ih =>
    unfold mapOnehot
    rcases List.mem_cons.mp hc with rfl | hc'
    · cases hx : onehot c V with
      | error e => simp [isOkB]
      | ok v => rw [hx] at h; simp [isOkB] at h
    · cases hx : onehot x V with
      | error e => simp [isOkB]
      | ok v =>
        have := ih hc'
        cases hr : mapOnehot rest V with
        | error e => simp [isOkB]
        | ok vs => rw [hr] at this; simp [isOkB] at this

/-- Folding recordLoss over a list of losses appends them all to the window and
leaves the smoothing state untouched. -/
theorem foldl_recordLoss (losses : List ℚ) (m : Metrics) :
    losses.foldl recordLoss m =
      { last_100_losses := m.last_100_losses ++ losses
        avg_100_time := m.avg_100_time
        avg_counter := m.avg_counter } := by
  induction losses generalizing m with
  | nil => simp
  | cons l ls ih => simp [List.foldl_cons, recordLoss, ih]

/-- The last element of a list extended by two elements. -/
theorem getLast?_append_two (l : List TrainEffect) (a b : TrainEffect) :
    (l ++ [a, b]).getLast? = some b := by
  rw [show l ++ [a, b] = (l ++ [a]) ++ [b] by simp]
  exact List.getLast?_concat (l ++ [a])

/-- Every save effect occurring in a step body is the step's own checkpoint. -/
theorem stepBody_save {i : Nat} {e : TrainEffect} (he : e ∈ stepBody i)
    {n : String} (hs : saveName e = some n) : n = "step-" ++ toString i := by
  unfold stepBody at he
  split_ifs at he with h1 h2
  · simp at he
    rcases he with rfl | rfl | rfl
    · simp [saveName] at hs
    · simp [saveName] at hs
    · simpa [saveName] using hs.symm
  · simp at he
    rcases he with rfl | rfl
    · simp [saveName] at hs
    · simp [saveName] at hs
  · simp at he
    rcases he with rfl | rfl
    · simp [saveName] at hs
    · simpa [saveName] using hs.symm
  · simp at he
    rcases he with rfl
    simp [saveName] at hs

/-! The claims. -/

/-- C1: the training loop's encode call cannot complete: main (train.py line
209) passes four arguments (sample, the separator id, word_space_size,
lexicon_dict) to prepare_sample, which is defined with three parameters
(train.py line 51), so Python raises TypeError at the first step of every run
and no step completes the sample-encode-train-record pipeline. -/
theorem c1_prepare_sample_call_arity :
    pyCallCheck prepare_sample_paramCount trainStepCallArgCount = .error "TypeError" := rfl

/-- C2 counterexample: with checkpoints step-50, step-120 and step-7 and no
explicit checkpoint, the scan selects 120 and restores step-120, but the loop
is range(start, end + 1) with start = 120, so the first executed step is 120,
not 121 as the claim states. -/
theorem c2_resume_counterexample :
    startup none true ["step-50", "step-120", "step-7"]
      = { restores := ["step-120"], result := .ok 120 100000 } ∧
    firstLoopStep 120 100000 = some 120 ∧
    firstLoopStep 120 100000 ≠ some 121 := by
  refine ⟨by decide, by decide, by decide⟩

/-- C2 amended: given checkpoints step-50, step-120 and step-7, the scan
returns 120 and step-120 is restored, and the loop resumes at step 120 itself:
the first executed step is the latest checkpoint's step, which is re-executed,
not latest + 1. -/
theorem c2_resume_from_latest :
    startup none true ["step-50", "step-120", "step-7"]
      = { restores := ["step-120"], result := .ok 120 100000 } ∧
    firstLoopStep 120 100000 = some 120 := by
  refine ⟨by decide, by decide⟩

/-- C3: the parsed option values do not govern the loop bounds: the option loop
does store --iterations and --start into iterations and start_step (first
conjunct), but main never reads either variable again; the loop bounds come
only from the checkpoint state, with end always the literal 100000, so on a
fresh run with --iterations=5 --start=7 the loop still runs steps 0 through
100000 (last two conjuncts, for those values and arbitrary others). -/
theorem c3_options_never_used :
    parseOpts [("--iterations", "5"), ("--start", "7")]
      = .ok { from_checkpoint := none, iterations := 5, start_step := 7 } ∧
    runBounds { from_checkpoint := none, iterations := 5, start_step := 7 } true []
      = { restores := [], result := .ok 0 100000 } ∧
    runBounds { from_checkpoint := none, iterations := 123456, start_step := 789 } true []
      = { restores := [], result := .ok 0 100000 } := by
  refine ⟨rfl, by decide, by decide⟩

/-- C4: the startup scan does not filter on the step- naming convention: it
parses the suffix after the first dash of every entry, so the unrelated file
lr-999 yields 999 and the code restores step-999, a checkpoint that does not
exist in the directory; and a directory whose only step- entry has a
non-numeric suffix crashes with IndexError on checkpoint_numbers[-1] instead
of being ignored. -/
theorem c4_scan_misparses_unrelated_entries :
    startup none true ["step-50", "lr-999", "step-7"]
      = { restores := ["step-999"], result := .ok 999 100000 } ∧
    startup none true ["step-x"] = { restores := [], result := .indexErr } := by
  refine ⟨by decide, by decide⟩

/-- C5 counterexample: supplying the explicit checkpoint name final restores
exactly that name, but the resume step is int of the suffix after the name's
first dash, which raises ValueError for a name with no embedded number, so the
loop does not resume at any embedded step for every user-supplied name. -/
theorem c5_explicit_checkpoint_counterexample :
    startup (some "final") true [] = { restores := ["final"], result := .valueErr } := by
  decide

/-- C5 amended: when an explicit checkpoint name is supplied, startup restores
exactly that named checkpoint; if the suffix after the name's first dash (the
whole name when it has no dash) parses as an integer, the loop starts at that
integer with end 100000, and otherwise startup fails with ValueError instead
of resuming. -/
theorem c5_explicit_checkpoint (name : String) (dirE : Bool) (entries : List String) :
    (startup (some name) dirE entries).restores = [name] ∧
    (∀ n : Int, pyInt? (pyDashSuffix name.toList) = some n →
      (startup (some name) dirE entries).result = .ok n 100000) ∧
    (pyInt? (pyDashSuffix name.toList) = none →
      (startup (some name) dirE entries).result = .valueErr) := by
  have hres : (startup (some name) dirE entries).result
      = match pyInt? (pyDashSuffix name.toList) with
        | some k => StartupResult.ok k 100000
        | none => StartupResult.valueErr := rfl
  refine ⟨rfl, ?_, ?_⟩
  · intro n hn
    rw [hres, hn]
  · intro hn
    rw [hres, hn]

/-- C5 witness: the amended statement evaluated at the names step-120 (numeric
suffix 120) and weird (no dash, non-numeric). -/
theorem c5_explicit_checkpoint_witness :
    (startup (some "step-120") true []).restores = ["step-120"] ∧
    (startup (some "step-120") true []).result = .ok 120 100000 ∧
    (startup (some "weird") true []).result = .valueErr := by
  refine ⟨(c5_explicit_checkpoint "step-120" true []).1,
    (c5_explicit_checkpoint "step-120" true []).2.1 120 (by decide),
    (c5_explicit_checkpoint "weird" true []).2.2 (by decide)⟩

/-- C6 counterexample: for the sample [3, 0, 5, 6, 7] with separator 0, the raw
answer [5, 6, 7] is longer than the prefix [3] of length T = 1, and encode
does not return tensors: prepare_sample fails, because the boolean mask built
from the three-element answer does not match the length-1 weights vector, so
an error is raised, contrary to the claim. -/
theorem c6_long_answer_counterexample :
    prepare_sample [3, 0, 5, 6, 7] 0 10
      = .error "IndexError: boolean index did not match indexed array" := rfl

/-- C6 amended: for every sample whose raw answer (the suffix after the first
separator at index j, so T = j) is longer than T, prepare_sample fails with
the IndexError of the numpy boolean-mask assignment (the mask has the answer's
length, the weights vector has length T); no truncated tensors are returned
and the model never sees the sample. -/
theorem c6_long_answer_fails (sample : List Int) (sep : Int) (V : Nat) (j : Nat)
    (h1 : pyIndex? sample sep = some j)
    (h2 : j < (sample.drop (j + 1)).length) :
    prepare_sample sample sep V
      = .error "IndexError: boolean index did not match indexed array" := by
  have hjlen : j < sample.length := pyIndex_lt h1
  have htake : (sample.take j).length = j := by
    simp
    omega
  have hw : weightsOf sample sep j
      = .error "IndexError: boolean index did not match indexed array" := by
    unfold weightsOf npBoolAssign
    have hd : (sample.drop (j + 1)).length = sample.length - (j + 1) := by simp
    have hmask : ¬ (((outputIds sample sep j).map (fun c => decide (c ≠ sep))).length
        = (List.replicate (sample.take j).length (0 : ℚ)).length) := by
      simp only [List.length_map, outputIds, padAnswer, List.length_append,
        List.length_replicate, htake]
      omega
    rw [if_neg hmask]
  have hres : prepare_sample sample sep V
      = match weightsOf sample sep j with
        | .error e => .error e
        | .ok weights_vec =>
          match mapOnehot (inputIds sample j) V with
          | .error e => .error e
          | .ok input_vec =>
            match mapOnehot (outputIds sample sep j) V with
            | .error e => .error e
            | .ok output_vec =>
              .ok { input_data := [input_vec]
                    target_output := [output_vec]
                    seq_len := (inputIds sample j).length
                    weights := [weights_vec.map (fun w => [w])] } := by
    unfold prepare_sample
    rw [h1]
  rw [hres, hw]

/-- C6 witness: the amended statement evaluated at the sample [3, 0, 5, 6, 7]
with separator 0, vocabulary size 10 and split index 1, whose answer [5, 6, 7]
is longer than the prefix of length 1. -/
theorem c6_long_answer_fails_witness :
    pyIndex? [3, 0, 5, 6, 7] 0 = some 1 ∧
    1 < (([3, 0, 5, 6, 7] : List Int).drop 2).length ∧
    prepare_sample [3, 0, 5, 6, 7] 0 10
      = .error "IndexError: boolean index did not match indexed array" := by
  refine ⟨by decide, by decide, c6_long_answer_fails [3, 0, 5, 6, 7] 0 10 1 (by decide) (by decide)⟩

/-- The mask-tensor sum of a prepared sample whose weights are the reshaped
vector w is the sum of w. -/
theorem maskSum_single (a b : List (List (List ℚ))) (n : Nat) (w : List ℚ) :
    maskSum (Prepared.mk a b n [w.map (fun x => [x])]) = w.sum := by
  induction w with
  | nil => simp [maskSum]
  | cons x xs ih =>
    simp [maskSum] at ih
    simp [maskSum, ih]

/-- The encoding of the sample [3, 7, 7, 9, 0, 9, 0] with separator 0 and
vocabulary size 10: prefix [3, 7, 7, 9], answer [9, 0] padded to [9, 0, 0, 0],
mask [1, 0, 0, 0]. -/
def encodedNine : Prepared where
  input_data :=
    [[[0, 0, 0, 1, 0, 0, 0, 0, 0, 0],
      [0, 0, 0, 0, 0, 0, 0, 1, 0, 0],
      [0, 0, 0, 0, 0, 0, 0, 1, 0, 0],
      [0, 0, 0, 0, 0, 0, 0, 0, 0, 1]]]
  target_output :=
    [[[0, 0, 0, 0, 0, 0, 0, 0, 0, 1],
      [1, 0, 0, 0, 0, 0, 0, 0, 0, 0],
      [1, 0, 0, 0, 0, 0, 0, 0, 0, 0],
      [1, 0, 0, 0, 0, 0, 0, 0, 0, 0]]]
  seq_len := 4
  weights := [[[1], [0], [0], [0]]]

/-- C7 counterexample: for the sample [3, 7, 7, 9, 0, 9, 0] with separator 0,
the raw (pre-padding) answer is the suffix [9, 0] of length 2 and T = 4, so
the claim requires sum(mask) = min 2 4 = 2; but the mask the code builds is
1.0 only where the padded answer differs from the separator, and the answer's
own separator at its second position gets 0.0, so the sum is 1. -/
theorem c7_mask_sum_counterexample :
    prepare_sample [3, 7, 7, 9, 0, 9, 0] 0 10 = .ok encodedNine ∧
    maskSum encodedNine = 1 ∧
    (([3, 7, 7, 9, 0, 9, 0] : List Int).drop 5).length = 2 ∧
    (1 : ℚ) ≠ ((min 2 4 : Nat) : ℚ) := by
  refine ⟨rfl, by simp [maskSum, encodedNine], rfl, by norm_num⟩

/-- C7 amended: for every sample containing the separator (first occurrence at
index j, so T = j) that encodes successfully, the returned mask is 1.0 exactly
at the positions of the padded answer that differ from the separator id and
0.0 elsewhere - in particular 0.0 at every padded position and also at answer
positions equal to the separator - and the sum of the mask equals the number
of non-separator ids of the raw unpadded answer, which is the raw answer's
length only when that answer contains no separator. -/
theorem c7_mask_semantics (sample : List Int) (sep : Int) (V : Nat) (j : Nat) (p : Prepared)
    (h1 : pyIndex? sample sep = some j)
    (h2 : prepare_sample sample sep V = .ok p) :
    p.weights = [(outputIds sample sep j).map (fun c => if c = sep then [(0 : ℚ)] else [1])] ∧
    maskSum p = (((sample.drop (j + 1)).filter (fun c => c ≠ sep)).length : ℚ) := by
  have hres : prepare_sample sample sep V
      = match weightsOf sample sep j with
        | .error e => .error e
        | .ok weights_vec =>
          match mapOnehot (inputIds sample j) V with
          | .error e => .error e
          | .ok input_vec =>
            match mapOnehot (outputIds sample sep j) V with
            | .error e => .error e
            | .ok output_vec =>
              .ok { input_data := [input_vec]
                    target_output := [output_vec]
                    seq_len := (inputIds sample j).length
                    weights := [weights_vec.map (fun w => [w])] } := by
    unfold prepare_sample
    rw [h1]
  rw [hres] at h2
  cases hw : weightsOf sample sep j with
  | error e => rw [hw] at h2; exact absurd h2 (by simp)
  | ok w =>
    rw [hw] at h2
    cases hi : mapOnehot (inputIds sample j) V with
    | error e => rw [hi] at h2; exact absurd h2 (by simp)
    | ok iv =>
      rw [hi] at h2
      cases ho : mapOnehot (outputIds sample sep j) V with
      | error e => rw [ho] at h2; exact absurd h2 (by simp)
      | ok ov =>
        rw [ho] at h2
        simp only [Except.ok.injEq] at h2
        subst h2
        unfold weightsOf npBoolAssign at hw
        by_cases hlen : ((outputIds sample sep j).map (fun c => decide (c ≠ sep))).length
            = (List.replicate (sample.take j).length (0 : ℚ)).length
        · rw [if_pos hlen] at hw
          simp only [Except.ok.injEq] at hw
          have hmlen : ((outputIds sample sep j).map (fun c => decide (c ≠ sep))).length
              = (sample.take j).length := by simpa using hlen
          rw [zipWith_replicate_mask _ _ hmlen] at hw
          have hwmap : w = (outputIds sample sep j).map
              (fun c => if c = sep then (0 : ℚ) else 1) := by
            rw [← hw, List.map_map]
            apply List.map_congr_left
            intro c _
            by_cases hcs : c = sep
            · simp [hcs, Function.comp]
            · simp [hcs, Function.comp]
          constructor
          · show [w.map (fun x => [x])] = _
            rw [hwmap, List.map_map]
            congr 1
            apply List.map_congr_left
            intro c _
            by_cases hcs : c = sep
            · simp [hcs, Function.comp]
            · simp [hcs, Function.comp]
          · show maskSum _ = _
            rw [maskSum_single, hwmap, sum_indicator]
            simp only [outputIds]
            rw [filter_padAnswer]
        · rw [if_neg hlen] at hw
          exact absurd hw (by simp)

/-- The encoding of the sample [1, 0, 2] with separator 0 and vocabulary size
3, used as a concrete witness value. -/
def encodedTiny : Prepared where
  input_data := [[[0, 1, 0]]]
  target_output := [[[0, 0, 1]]]
  seq_len := 1
  weights := [[[1]]]

/-- C7 witness: the amended statement evaluated at the sample [1, 0, 2] with
separator 0 and vocabulary size 3, whose answer [2] has no separator, so the
mask is [1.0] and its sum 1 equals the raw answer's non-separator count. -/
theorem c7_mask_semantics_witness :
    prepare_sample [1, 0, 2] 0 3 = .ok encodedTiny ∧
    encodedTiny.weights
      = [(outputIds [1, 0, 2] 0 1).map (fun c => if c = 0 then [(0 : ℚ)] else [1])] ∧
    maskSum encodedTiny
      = (((([1, 0, 2] : List Int).drop 2).filter (fun c => c ≠ 0)).length : ℚ) := by
  have h := c7_mask_semantics [1, 0, 2] 0 3 1 encodedTiny (by decide) rfl
  exact ⟨rfl, h.1, h.2⟩

/-- C8 counterexample: the negative id -1 is outside the vocabulary range
[0, 10), yet encode does not fail: for the sample [3, 0, -1] with separator 0,
prepare_sample succeeds, and numpy index wrap-around places the answer's
one-hot 1.0 at position 9 = 10 + (-1). -/
theorem c8_negative_id_counterexample :
    isOkB (prepare_sample [3, 0, -1] 0 10) = true ∧
    (prepare_sample [3, 0, -1] 0 10).toOption.map Prepared.target_output
      = some [[[0, 0, 0, 0, 0, 0, 0, 0, 0, 1]]] := by
  exact ⟨rfl, rfl⟩

/-- C8 amended: every id of the prefix and the padded answer is expanded to a
one-hot vector of width vocab_size when it lies in [0, vocab_size): the vector
has length vocab_size, sums to 1, and carries the 1 at the id's position. An
id at or above vocab_size, or below -vocab_size, makes the one-hot encoding
fail with an IndexError, and hence makes encode fail; but a negative id in
[-vocab_size, 0) does not fail: numpy wrap-around produces the one-hot at
position vocab_size + id. Accordingly, a successful encode guarantees only
that every id of both sequences lies in [-vocab_size, vocab_size). -/
theorem c8_encoding_range :
    (∀ (idx : Int) (V : Nat), ((V : Int) ≤ idx ∨ idx < -(V : Int)) →
       isOkB (onehot idx V) = false) ∧
    (∀ (idx : Int) (V : Nat), 0 ≤ idx → idx < (V : Int) →
       ∃ v, onehot idx V = .ok v ∧ v.length = V ∧ v.sum = 1 ∧ v.getD idx.toNat 0 = 1) ∧
    (∀ (idx : Int) (V : Nat), -(V : Int) ≤ idx → idx < 0 →
       ∃ v, onehot idx V = .ok v ∧ v.length = V ∧ v.getD (V - (-idx).toNat) 0 = 1) ∧
    (∀ (sample : List Int) (sep : Int) (V : Nat) (p : Prepared) (j : Nat),
       pyIndex? sample sep = some j → prepare_sample sample sep V = .ok p →
       ∀ c ∈ inputIds sample j ++ outputIds sample sep j,
         -(V : Int) ≤ c ∧ c < (V : Int)) := by
  refine ⟨?_, ?_, ?_, ?_⟩
  · intro idx V h
    unfold onehot
    split_ifs with h1 h2
    · exfalso; omega
    · exfalso; omega
    · rfl
  · intro idx V h0 hV
    have hcond : 0 ≤ idx ∧ idx < (V : Int) := ⟨h0, hV⟩
    refine ⟨(List.replicate V (0 : ℚ)).set idx.toNat 1, ?_, ?_, ?_, ?_⟩
    · unfold onehot
      rw [if_pos hcond]
    · simp
    · exact replicate_set_sum V idx.toNat 1 (by omega)
    · exact replicate_set_getD V idx.toNat 1 (by omega)
  · intro idx V h1 h2
    have hcond : -(V : Int) ≤ idx ∧ idx < 0 := ⟨h1, h2⟩
    have hnot : ¬ (0 ≤ idx ∧ idx < (V : Int)) := by omega
    refine ⟨(List.replicate V (0 : ℚ)).set (V - (-idx).toNat) 1, ?_, ?_, ?_⟩
    · unfold onehot
      rw [if_neg hnot, if_pos hcond]
    · simp
    · exact replicate_set_getD V (V - (-idx).toNat) 1 (by omega)
  · intro sample sep V p j h1 h2 c hc
    have hres : prepare_sample sample sep V
        = match weightsOf sample sep j with
          | .error e => .error e
          | .ok weights_vec =>
            match mapOnehot (inputIds sample j) V with
            | .error e => .error e
            | .ok input_vec =>
              match mapOnehot (outputIds sample sep j) V with
              | .error e => .error e
              | .ok output_vec =>
                .ok { input_data := [input_vec]
                      target_output := [output_vec]
                      seq_len := (inputIds sample j).length
                      weights := [weights_vec.map (fun w => [w])] } := by
      unfold prepare_sample
      rw [h1]
    rw [hres] at h2
    cases hw : weightsOf sample sep j with
    | error e => rw [hw] at h2; exact absurd h2 (by simp)
    | ok w =>
      rw [hw] at h2
      cases hi : mapOnehot (inputIds sample j) V with
      | error e => rw [hi] at h2; exact absurd h2 (by simp)
      | ok iv =>
        rw [hi] at h2
        cases ho : mapOnehot (outputIds sample sep j) V with
        | error e => rw [ho] at h2; exact absurd h2 (by simp)
        | ok ov =>
          rcases List.mem_append.mp hc with hmem | hmem
          · exact onehot_ok_range (mapOnehot_ok_mem hi c hmem)
          · exact onehot_ok_range (mapOnehot_ok_mem ho c hmem)

/-- C8 witness: the amended statement evaluated at id 12 with vocabulary 10
(fails), id 2 with vocabulary 4 (one-hot at position 2), id -1 with
vocabulary 4 (wraps to position 3), and the successful encode of [12, 0, 3]
being impossible is replaced by the in-range guarantee applied to the
successful encode of [1, 0, 2] with vocabulary 3 at the member id 2. -/
theorem c8_encoding_range_witness :
    isOkB (onehot 12 10) = false ∧
    (∃ v, onehot 2 4 = .ok v ∧ v.length = 4 ∧ v.sum = 1 ∧ v.getD (2 : Int).toNat 0 = 1) ∧
    (∃ v, onehot (-1) 4 = .ok v ∧ v.length = 4 ∧ v.getD (4 - (-(-1 : Int)).toNat) 0 = 1) ∧
    (-(3 : Int) ≤ 2 ∧ (2 : Int) < 3) := by
  refine ⟨c8_encoding_range.1 12 10 (by norm_num), ?_, ?_, ?_⟩
  · exact c8_encoding_range.2.1 2 4 (by norm_num) (by norm_num)
  · exact c8_encoding_range.2.2.1 (-1) 4 (by norm_num) (by norm_num)
  · exact c8_encoding_range.2.2.2 [1, 0, 2] 0 3 encodedTiny 1 (by decide) rfl 2 (by decide)

/-- C9: starting from an empty window, after exactly 100 recorded losses the
report computes the arithmetic mean (sum divided by 100) of those losses,
resets the window to empty, and updates the smoothed interval duration by the
cumulative-mean rule avg + (1/n) * (elapsed - avg) where n is the incremented
report counter, i.e. the number of reports emitted so far including this one
(train.py lines 238-256). -/
theorem c9_metrics_flush (losses : List ℚ) (m : Metrics) (elapsed : ℚ)
    (hw : m.last_100_losses = []) (hn : losses.length = 100) :
    (flushReport (losses.foldl recordLoss m) elapsed).1.mean_loss = losses.sum / 100 ∧
    (flushReport (losses.foldl recordLoss m) elapsed).2.last_100_losses = [] ∧
    (flushReport (losses.foldl recordLoss m) elapsed).2.avg_100_time
      = m.avg_100_time + (1 / ((m.avg_counter : ℚ) + 1)) * (elapsed - m.avg_100_time) ∧
    (flushReport (losses.foldl recordLoss m) elapsed).2.avg_counter = m.avg_counter + 1 := by
  rw [foldl_recordLoss]
  refine ⟨?_, rfl, ?_, rfl⟩
  · simp [flushReport, npMean, hw, hn]
  · simp only [flushReport]
    push_cast
    ring

/-- C9 witness: one hundred losses of value 2 flushed from an empty window with
previous average 5, counter 3 and elapsed time 9 give mean 2, an empty window,
average 5 + (1/4) * (9 - 5) = 6 and counter 4. -/
theorem c9_metrics_flush_witness :
    (flushReport ((List.replicate 100 (2 : ℚ)).foldl recordLoss ⟨[], 5, 3⟩) 9).1.mean_loss = 2 ∧
    (flushReport ((List.replicate 100 (2 : ℚ)).foldl recordLoss ⟨[], 5, 3⟩) 9).2.last_100_losses
      = [] ∧
    (flushReport ((List.replicate 100 (2 : ℚ)).foldl recordLoss ⟨[], 5, 3⟩) 9).2.avg_100_time
      = 6 ∧
    (flushReport ((List.replicate 100 (2 : ℚ)).foldl recordLoss ⟨[], 5, 3⟩) 9).2.avg_counter
      = 4 := by
  have h := c9_metrics_flush (List.replicate 100 2) ⟨[], 5, 3⟩ 9 rfl (by simp)
  refine ⟨?_, h.2.1, ?_, h.2.2.2⟩
  · rw [h.1]
    simp [List.sum_replicate]
    norm_num
  · rw [h.2.2.1]
    norm_num

/-- C10: an interrupt delivered at any point during step i leads to the
KeyboardInterrupt handler, whose effects are exactly one checkpoint save,
named step-i, followed by sys.exit(0): every save occurring anywhere in the
interrupted step (including a scheduled checkpoint of the same step) is named
for step i, no checkpoint for any other step is written, and the process ends
with a zero exit status, so cancellation is not an error (train.py lines
263-268). -/
theorem c10_interrupt_checkpoint (i k : Nat) :
    (interruptHandler i).filterMap saveName = ["step-" ++ toString i] ∧
    (∀ n ∈ (interruptedStep i k).filterMap saveName, n = "step-" ++ toString i) ∧
    (interruptedStep i k).getLast? = some (.exitProc 0) := by
  refine ⟨rfl, ?_, ?_⟩
  · intro n hn
    rw [interruptedStep, List.filterMap_append] at hn
    rcases List.mem_append.mp hn with h | h
    · obtain ⟨e, he, hs⟩ := List.mem_filterMap.mp h
      exact stepBody_save (List.take_subset _ _ he) hs
    · simp [interruptHandler, saveName, List.filterMap] at h
      exact h
  · rw [interruptedStep, interruptHandler]
    exact getLast?_append_two _ _ _
